import Mathlib

/-!
Shallow embedding of the faiss-go C facade (`src/faiss_c_impl.cpp`).

The file models the facade layer of the repository: status-code translation
(`CATCH_AND_HANDLE`), runtime-identity capability dispatch (`dynamic_cast`
guards), constructor metric selection, the serialization entry points with
their variant-tag probe cascades, the IDMap removal entry point, the k-means
assignment facade, and the accelerator stubs of the build without GPU
support.  Engine internals that live outside the repository (the FAISS
library itself) are modelled from the specification where a claim depends on
them; each such definition carries a doc comment starting with
`Modelled from the spec:`.
-/

namespace FaissGo

/-- Distance metric of an index: `faiss::MetricType` restricted to the two
values the facade selects between (`METRIC_INNER_PRODUCT = 0`,
`METRIC_L2 = 1`). -/
inductive Metric where
  | innerProduct
  | l2
deriving DecidableEq, Repr

/-- The integer value of the `faiss::MetricType` enum for each metric, as
reported through the `int* metric` output parameters. -/
def metricCode : Metric → Nat
  | .innerProduct => 0
  | .l2 => 1

/-- Decode a `faiss::MetricType` enum value. -/
def metricOfCode : Nat → Option Metric
  | 0 => some .innerProduct
  | 1 => some .l2
  | _ => none

/-- The selection expression
`metric_type == 0 ? faiss::METRIC_INNER_PRODUCT : faiss::METRIC_L2`
repeated in every metric-taking constructor of the facade. -/
def toMetric (metricType : Int) : Metric :=
  if metricType = 0 then .innerProduct else .l2

/-- The concrete engine classes a `FaissIndex` handle built by this facade
can refer to (the dynamic type behind the opaque pointer). -/
inductive RuntimeClass where
  | flatL2
  | flatIP
  | ivfFlat
  | ivfPQ
  | ivfSQ
  | hnswFlat
  | pq
  | sq
  | lsh
  | idmap
  | refine
  | preTransform
  | shards
deriving DecidableEq, Repr

/-- `dynamic_cast<faiss::IndexIVF*>` succeeds exactly on the `IndexIVF`
subclasses the facade constructs (`IndexIVFFlat`, `IndexIVFPQ`,
`IndexIVFScalarQuantizer`). -/
def isIVF : RuntimeClass → Bool
  | .ivfFlat => true
  | .ivfPQ => true
  | .ivfSQ => true
  | _ => false

/-- `dynamic_cast<faiss::IndexHNSW*>`: of the classes the facade builds only
`IndexHNSWFlat` is an `IndexHNSW`. -/
def isHNSW : RuntimeClass → Bool
  | .hnswFlat => true
  | _ => false

/-- `dynamic_cast<faiss::IndexRefine*>`. -/
def isRefine : RuntimeClass → Bool
  | .refine => true
  | _ => false

/-- `dynamic_cast<faiss::IndexFlatL2*>`. -/
def isFlatL2 : RuntimeClass → Bool
  | .flatL2 => true
  | _ => false

/-- `dynamic_cast<faiss::IndexFlatIP*>`. -/
def isFlatIP : RuntimeClass → Bool
  | .flatIP => true
  | _ => false

/-- `dynamic_cast<faiss::IndexIVFFlat*>`. -/
def isIVFFlat : RuntimeClass → Bool
  | .ivfFlat => true
  | _ => false

/-- `dynamic_cast<faiss::IndexIVFPQ*>`. -/
def isIVFPQ : RuntimeClass → Bool
  | .ivfPQ => true
  | _ => false

/-- `dynamic_cast<faiss::IndexHNSWFlat*>`. -/
def isHNSWFlat : RuntimeClass → Bool
  | .hnswFlat => true
  | _ => false

/-- `dynamic_cast<faiss::IndexPQ*>` (also true of the handles built by
`faiss_IndexPQFastScan_new`, which instantiates `IndexPQ` as a fallback). -/
def isPQ : RuntimeClass → Bool
  | .pq => true
  | _ => false

/-- `dynamic_cast<faiss::IndexIDMap*>`. -/
def isIDMap : RuntimeClass → Bool
  | .idmap => true
  | _ => false

/-- Observable state of one index handle: its dynamic class plus every field
the facade reads or writes through capability accessors.  `k_factor` is a
C `float` the facade only stores and never computes with, so its bits are
modelled by an opaque integer code. -/
structure IndexState where
  cls : RuntimeClass
  d : Int
  metric : Metric
  ntotal : Int
  trained : Bool
  nprobe : Int
  efConstruction : Int
  efSearch : Int
  kFactor : Int
deriving DecidableEq, Repr

/-- `faiss_IndexIVF_set_nprobe` (lines 87–95): `dynamic_cast` to `IndexIVF`,
return `-1` if the cast fails, otherwise store the field and return 0.
Result is (status, state after the call). -/
def faiss_IndexIVF_set_nprobe (s : IndexState) (nprobe : Int) : Int × IndexState :=
  if isIVF s.cls then (0, { s with nprobe := nprobe }) else (-1, s)

/-- `faiss_IndexIVF_get_nprobe` (lines 97–105): on cast failure returns `-1`
without writing the output parameter (modelled as `none`). -/
def faiss_IndexIVF_get_nprobe (s : IndexState) : Int × Option Int :=
  if isIVF s.cls then (0, some s.nprobe) else (-1, none)

/-- `faiss_IndexHNSW_set_efConstruction` (lines 120–128). -/
def faiss_IndexHNSW_set_efConstruction (s : IndexState) (ef : Int) : Int × IndexState :=
  if isHNSW s.cls then (0, { s with efConstruction := ef }) else (-1, s)

/-- `faiss_IndexHNSW_set_efSearch` (lines 130–138). -/
def faiss_IndexHNSW_set_efSearch (s : IndexState) (ef : Int) : Int × IndexState :=
  if isHNSW s.cls then (0, { s with efSearch := ef }) else (-1, s)

/-- `faiss_IndexHNSW_get_efConstruction` (lines 140–148). -/
def faiss_IndexHNSW_get_efConstruction (s : IndexState) : Int × Option Int :=
  if isHNSW s.cls then (0, some s.efConstruction) else (-1, none)

/-- `faiss_IndexHNSW_get_efSearch` (lines 150–158). -/
def faiss_IndexHNSW_get_efSearch (s : IndexState) : Int × Option Int :=
  if isHNSW s.cls then (0, some s.efSearch) else (-1, none)

/-- `faiss_IndexRefine_set_k_factor` (lines 691–699). -/
def faiss_IndexRefine_set_k_factor (s : IndexState) (kFactor : Int) : Int × IndexState :=
  if isRefine s.cls then (0, { s with kFactor := kFactor }) else (-1, s)

/-- `faiss_Index_ntotal` (lines 313–315): `return index->ntotal;` — the value
itself is the C return value; there is no status code and no output
parameter. -/
def faiss_Index_ntotal (s : IndexState) : Int := s.ntotal

/-- `faiss_Index_d` (lines 321–323): `return index->d;`. -/
def faiss_Index_d (s : IndexState) : Int := s.d

/-- `faiss_Index_is_trained` (lines 317–319):
`return index->is_trained ? 1 : 0;`. -/
def faiss_Index_is_trained (s : IndexState) : Int := if s.trained then 1 else 0

/-- `faiss_Index_free` (lines 309–311): `void` return type — nothing crosses
the boundary back to the caller. -/
def faiss_Index_free (_s : IndexState) : Unit := ()

/-- The faults the two catch clauses of `CATCH_AND_HANDLE` (lines 47–53)
intercept: `catch (const std::exception&)` and `catch (...)`. -/
inductive Fault where
  | stdException (what : String)
  | other
deriving DecidableEq, Repr

/-- The boundary entry points of `src/faiss_c_impl.cpp` whose body is
`try { <engine call>; return 0; } CATCH_AND_HANDLE()`. -/
inductive BoundaryOp where
  | add
  | addWithIds
  | search
  | rangeSearch
  | train
  | assign
  | reconstruct
  | reconstructN
  | reset
  | writeIndex
  | readIndex
  | serializeIndex
  | deserializeIndex
  | kmeansTrain
  | kmeansAssign
  | vtTrain
  | vtApply
  | vtReverse
deriving DecidableEq, Repr

/-- One wrapped boundary call: the engine computation either returns
(`Except.ok`) or raises a fault (`Except.error`); the wrapper converts the
outcome to the C status (`return 0` on fall-through, `-1` from either catch
clause).  A total Lean function: every outcome yields a status, so no fault
ever crosses the boundary and no abort occurs. -/
def boundaryStatus (_op : BoundaryOp) (outcome : Except Fault Unit) : Int :=
  match outcome with
  | .ok _ => 0
  | .error (.stdException _) => -1
  | .error .other => -1

/-- GPU stub (lines 904–907, `#else` branch without `FAISS_GPU`):
`faiss_StandardGpuResources_new`. -/
def faiss_StandardGpuResources_new (_pRes : Unit) : Int := -1

/-- GPU stub (lines 908–911): `faiss_StandardGpuResources_setTempMemory`. -/
def faiss_StandardGpuResources_setTempMemory (_res : Unit) (_bytes : Int) : Int := -1

/-- GPU stub (lines 912–915):
`faiss_StandardGpuResources_setDefaultNullStreamAllDevices`. -/
def faiss_StandardGpuResources_setDefaultNullStreamAllDevices (_res : Unit) : Int := -1

/-- GPU stub (lines 919–922): `faiss_GpuIndexFlat_new`. -/
def faiss_GpuIndexFlat_new (_pIndex _res : Unit) (_d _metricType _device : Int) : Int := -1

/-- GPU stub (lines 923–926): `faiss_GpuIndexIVFFlat_new`. -/
def faiss_GpuIndexIVFFlat_new (_pIndex _res _quantizer : Unit)
    (_d _nlist _metricType _device : Int) : Int := -1

/-- GPU stub (lines 927–930): `faiss_index_cpu_to_gpu`. -/
def faiss_index_cpu_to_gpu (_res : Unit) (_device : Int) (_cpuIndex _pGpuIndex : Unit) : Int := -1

/-- GPU stub (lines 931–934): `faiss_index_gpu_to_cpu`. -/
def faiss_index_gpu_to_cpu (_gpuIndex _pCpuIndex _indexType _d _metric _ntotal : Unit) : Int := -1

/-- GPU stub (lines 935–938): `faiss_index_cpu_to_all_gpus`. -/
def faiss_index_cpu_to_all_gpus (_cpuIndex _pGpuIndex : Unit) : Int := -1

/-- GPU stub (line 939): `faiss_get_num_gpus` writes `*ngpus = 0` and returns
status 0; modelled as the pair (status, ngpus output). -/
def faiss_get_num_gpus : Int × Int := (0, 0)

/-- The parameters a facade constructor hands to the engine when building an
index — enough to compare what two constructor entry points build.  Fields
not used by a given constructor are 0 / `none`. -/
structure BuiltIndex where
  cls : RuntimeClass
  d : Int
  metric : Metric
  nlist : Int
  M : Int
  nbits : Int
  qtype : Int
  quantizer : Option RuntimeClass
deriving DecidableEq, Repr

/-- `faiss_IndexFlatL2_new` (lines 57–63). -/
def faiss_IndexFlatL2_new (d : Int) : BuiltIndex :=
  ⟨.flatL2, d, .l2, 0, 0, 0, 0, none⟩

/-- `faiss_IndexFlatIP_new` (lines 65–71). -/
def faiss_IndexFlatIP_new (d : Int) : BuiltIndex :=
  ⟨.flatIP, d, .innerProduct, 0, 0, 0, 0, none⟩

/-- `faiss_IndexIVFFlat_new` (lines 75–85). -/
def faiss_IndexIVFFlat_new (quantizer : RuntimeClass) (d nlist metricType : Int) : BuiltIndex :=
  ⟨.ivfFlat, d, toMetric metricType, nlist, 0, 0, 0, some quantizer⟩

/-- `faiss_IndexHNSWFlat_new` (lines 109–118). -/
def faiss_IndexHNSWFlat_new (d M metricType : Int) : BuiltIndex :=
  ⟨.hnswFlat, d, toMetric metricType, 0, M, 0, 0, none⟩

/-- `faiss_IndexPQ_new` (lines 162–171). -/
def faiss_IndexPQ_new (d M nbits metricType : Int) : BuiltIndex :=
  ⟨.pq, d, toMetric metricType, 0, M, nbits, 0, none⟩

/-- Modelled from the spec: the engine's `faiss::IndexIVFPQ` constructor is
not part of `src/`; its trailing metric parameter is defaulted (`METRIC_L2`)
when, as in `faiss_IndexIVFPQ_new`, the caller passes no metric. -/
def ivfpqDefaultMetric : Metric := .l2

/-- `faiss_IndexIVFPQ_new` (lines 173–180): passes no metric to the engine
constructor, so the engine default applies. -/
def faiss_IndexIVFPQ_new (quantizer : RuntimeClass) (d nlist M nbits : Int) : BuiltIndex :=
  ⟨.ivfPQ, d, ivfpqDefaultMetric, nlist, M, nbits, 0, some quantizer⟩

/-- `faiss_IndexScalarQuantizer_new` (lines 490–501). -/
def faiss_IndexScalarQuantizer_new (d qtype metricType : Int) : BuiltIndex :=
  ⟨.sq, d, toMetric metricType, 0, 0, 0, qtype, none⟩

/-- `faiss_IndexIVFScalarQuantizer_new` (lines 503–515). -/
def faiss_IndexIVFScalarQuantizer_new (quantizer : RuntimeClass)
    (d nlist qtype metricType : Int) : BuiltIndex :=
  ⟨.ivfSQ, d, toMetric metricType, nlist, 0, 0, qtype, some quantizer⟩

/-- `faiss_IndexPQFastScan_new` (lines 732–742): instantiates `IndexPQ` as
the documented fallback. -/
def faiss_IndexPQFastScan_new (d M nbits metricType : Int) : BuiltIndex :=
  ⟨.pq, d, toMetric metricType, 0, M, nbits, 0, none⟩

/-- `faiss_IndexIVFPQFastScan_new` (lines 744–753): instantiates
`IndexIVFPQ` with the selected metric. -/
def faiss_IndexIVFPQFastScan_new (quantizer : RuntimeClass)
    (d nlist M nbits metricType : Int) : BuiltIndex :=
  ⟨.ivfPQ, d, toMetric metricType, nlist, M, nbits, 0, some quantizer⟩

/-- `faiss_IndexIVFFlatOnDisk_new` (lines 768–781): `(void)filename;` — the
filename is discarded and an in-memory `IndexIVFFlat` is built. -/
def faiss_IndexIVFFlatOnDisk_new (quantizer : RuntimeClass) (d nlist : Int)
    (_filename : String) (metricType : Int) : BuiltIndex :=
  ⟨.ivfFlat, d, toMetric metricType, nlist, 0, 0, 0, some quantizer⟩

/-- `faiss_IndexIVFPQOnDisk_new` (lines 783–795): `(void)filename;` — the
filename is discarded and an in-memory `IndexIVFPQ` is built with the
selected metric. -/
def faiss_IndexIVFPQOnDisk_new (quantizer : RuntimeClass) (d nlist M nbits : Int)
    (_filename : String) (metricType : Int) : BuiltIndex :=
  ⟨.ivfPQ, d, toMetric metricType, nlist, M, nbits, 0, some quantizer⟩

/-- An engine index as handled by the serialization entry points: its dynamic
class and the metadata fields the facade reports after reconstruction. -/
structure EngineIndex where
  cls : RuntimeClass
  d : Nat
  metric : Metric
  ntotal : Nat
  trained : Bool
deriving DecidableEq, Repr

/-- An enumeration of the dynamic classes, used by the modelled engine
serializer to make the class persist in the byte stream. -/
def classCode : RuntimeClass → Nat
  | .flatL2 => 0
  | .flatIP => 1
  | .ivfFlat => 2
  | .ivfPQ => 3
  | .ivfSQ => 4
  | .hnswFlat => 5
  | .pq => 6
  | .sq => 7
  | .lsh => 8
  | .idmap => 9
  | .refine => 10
  | .preTransform => 11
  | .shards => 12

/-- Decoder matching `classCode`. -/
def classOfCode : Nat → Option RuntimeClass
  | 0 => some .flatL2
  | 1 => some .flatIP
  | 2 => some .ivfFlat
  | 3 => some .ivfPQ
  | 4 => some .ivfSQ
  | 5 => some .hnswFlat
  | 6 => some .pq
  | 7 => some .sq
  | 8 => some .lsh
  | 9 => some .idmap
  | 10 => some .refine
  | 11 => some .preTransform
  | 12 => some .shards
  | _ => none

/-- Modelled from the spec: the engine serializer `faiss::write_index` into a
`faiss::VectorIOWriter` — an opaque byte sequence owned by the engine, which
is not part of `src/`.  Per §4.6 the format keeps the index's class and its
`d`, `metric`, `ntotal` and `trained` metadata stable across a write/read
pair, so the model writes exactly those fields. -/
def writeIndexBytes (i : EngineIndex) : List Nat :=
  [classCode i.cls, i.d, metricCode i.metric, i.ntotal, if i.trained then 1 else 0]

/-- Modelled from the spec: the engine deserializer `faiss::read_index` from
a `faiss::VectorIOReader`; a malformed buffer raises (modelled as `none`,
which the facade turns into status `-1`). -/
def readIndexBytes : List Nat → Option EngineIndex
  | [c, d, m, n, t] =>
    match classOfCode c, metricOfCode m with
    | some cls, some metric => some ⟨cls, d, metric, n, t == 1⟩
    | _, _ => none
  | _ => none

/-- The type-probe cascade of `faiss_read_index` (lines 341–357): an ordered
sequence of `dynamic_cast` tests over the reconstructed handle, first match
wins, `"Unknown"` otherwise. -/
def probeTagRead (c : RuntimeClass) : String :=
  if isFlatL2 c then "IndexFlatL2"
  else if isFlatIP c then "IndexFlatIP"
  else if isIVFFlat c then "IndexIVFFlat"
  else if isIVFPQ c then "IndexIVFPQ"
  else if isHNSWFlat c then "IndexHNSWFlat"
  else if isPQ c then "IndexPQ"
  else if isIDMap c then "IndexIDMap"
  else "Unknown"

/-- The type-probe cascade of `faiss_deserialize_index` (lines 392–408),
transcribed separately from its own source block. -/
def probeTagDeserialize (c : RuntimeClass) : String :=
  if isFlatL2 c then "IndexFlatL2"
  else if isFlatIP c then "IndexFlatIP"
  else if isIVFFlat c then "IndexIVFFlat"
  else if isIVFPQ c then "IndexIVFPQ"
  else if isHNSWFlat c then "IndexHNSWFlat"
  else if isPQ c then "IndexPQ"
  else if isIDMap c then "IndexIDMap"
  else "Unknown"

/-- The shared candidate list, in source order, that both cascades probe. -/
def probeCandidates : List ((RuntimeClass → Bool) × String) :=
  [(isFlatL2, "IndexFlatL2"), (isFlatIP, "IndexFlatIP"), (isIVFFlat, "IndexIVFFlat"),
   (isIVFPQ, "IndexIVFPQ"), (isHNSWFlat, "IndexHNSWFlat"), (isPQ, "IndexPQ"),
   (isIDMap, "IndexIDMap")]

/-- First matching tag of an ordered candidate list, `"Unknown"` when no
candidate matches. -/
def firstMatch : List ((RuntimeClass → Bool) × String) → RuntimeClass → String
  | [], _ => "Unknown"
  | (p, tag) :: rest, c => if p c then tag else firstMatch rest c

/-- `faiss_serialize_index` (lines 368–380): engine-serialize into a writer,
then copy the bytes out into a caller-owned buffer. -/
def faiss_serialize_index (i : EngineIndex) : List Nat := writeIndexBytes i

/-- The output parameters `faiss_read_index` / `faiss_deserialize_index`
fill on success: the handle, the probed tag, and `d`, `metric_type`,
`ntotal`. -/
structure ReadOut where
  index : EngineIndex
  indexType : String
  dOut : Nat
  metricOut : Nat
  ntotalOut : Nat
deriving DecidableEq, Repr

/-- `faiss_deserialize_index` (lines 382–417): copy the caller's buffer into
a reader, engine-read it, probe the variant tag, and report `d`,
`metric_type` and `ntotal`; an engine fault yields status `-1` with no
outputs (modelled as `none`). -/
def faiss_deserialize_index (data : List Nat) : Option ReadOut :=
  (readIndexBytes data).map fun idx =>
    ⟨idx, probeTagDeserialize idx.cls, idx.d, metricCode idx.metric, idx.ntotal⟩

/-- `faiss_read_index` (lines 335–366): same shape from a named file; the
file system is modelled by the bytes the file holds. -/
def faiss_read_index (fileBytes : List Nat) : Option ReadOut :=
  (readIndexBytes fileBytes).map fun idx =>
    ⟨idx, probeTagRead idx.cls, idx.d, metricCode idx.metric, idx.ntotal⟩

/-- A stored vector.  None of the verified claims computes with the float
entries themselves, so coordinates are modelled exactly as integers. -/
abbrev Vec := List Int

/-- Observable state of a `faiss::IndexIDMap`: its (external id, vector)
rows in insertion order; `ntotal` is the row count. -/
structure IDMapState where
  entries : List (Int × Vec)
deriving DecidableEq, Repr

/-- `ntotal` of an IDMap handle. -/
def IDMapState.ntotal (s : IDMapState) : Nat := s.entries.length

/-- The external ids currently present, in storage order. -/
def IDMapState.presentIds (s : IDMapState) : List Int := s.entries.map Prod.fst

/-- `faiss_IndexIDMap_add_with_ids` (lines 192–200): appends the rows. -/
def faiss_IndexIDMap_add_with_ids (s : IDMapState) (rows : List (Int × Vec)) : IDMapState :=
  ⟨s.entries ++ rows⟩

/-- `faiss::IDSelectorBatch(n_ids, ids)` membership test. -/
def idSelectorBatch (ids : List Int) (x : Int) : Bool := decide (x ∈ ids)

/-- Modelled from the spec: the engine's `IndexIDMap::remove_ids`, which is
not part of `src/` — per §4.5 it "removes by a batch membership test and
returns the exact count removed". -/
def removeIdsEngine (s : IDMapState) (sel : Int → Bool) : Nat × IDMapState :=
  let kept := s.entries.filter fun e => !(sel e.1)
  (s.entries.length - kept.length, ⟨kept⟩)

/-- `faiss_IndexIDMap_remove_ids` (lines 202–212): builds an
`IDSelectorBatch` over the id array, calls the engine removal, and reports
the removed count through `*n_removed`. -/
def faiss_IndexIDMap_remove_ids (s : IDMapState) (ids : List Int) : Nat × IDMapState :=
  removeIdsEngine s (idSelectorBatch ids)

/-- Squared L2 distance on coordinate lists (the facade's flat search runs
under `METRIC_L2`; monotonicity in the squared distance is all the nearest
label needs). -/
def l2sq (x y : Vec) : Int := (List.zipWith (fun a b => (a - b) * (a - b)) x y).sum

/-- A `faiss::Clustering` job: `d`, `k`, the trained centroid buffer and the
tuning fields the facade exposes. -/
structure KmeansState where
  d : Nat
  k : Nat
  centroids : List Vec
  niter : Int
  seed : Int
  verbose : Bool
deriving DecidableEq, Repr

/-- Modelled from the spec: the scan the engine's `IndexFlatL2` performs for
one query at `k = 1` — it tracks the best (label, distance) pair over the
stored vectors, keeping the earlier label on ties.  The engine is not part
of `src/`. -/
def flatL2Nearest (q : Vec) : List Vec → Nat → Nat × Int → Nat × Int
  | [], _, best => best
  | c :: rest, i, best =>
      flatL2Nearest q rest (i + 1) (if l2sq q c < best.2 then (i, l2sq q c) else best)

/-- Modelled from the spec: `IndexFlatL2` search with `k = 1` — the label of
the nearest stored vector under L2. -/
def flatL2Search1 (stored : List Vec) (q : Vec) : Nat :=
  match stored with
  | [] => 0
  | c :: rest => (flatL2Nearest q rest 1 (0, l2sq q c)).1

/-- `faiss_Kmeans_assign` (lines 438–449): builds a disposable
`IndexFlatL2(kmeans->d)`, adds the `k` trained centroids, and runs a `k = 1`
search over the inputs — nothing beyond those two engine primitives. -/
def faiss_Kmeans_assign (km : KmeansState) (xs : List Vec) : List Nat :=
  xs.map (flatL2Search1 km.centroids)

/-- A concrete Flat(L2) handle holding 5 vectors, used by closed instances. -/
def flatSample : IndexState :=
  ⟨.flatL2, 4, .l2, 5, true, 1, 40, 16, 1⟩

/-- A concrete IDMap handle with three rows, used by closed instances. -/
def idmapSample : IDMapState :=
  ⟨[(10, [1]), (20, [2]), (30, [3])]⟩

/-- A concrete trained clustering job (d = 1, k = 2), used by closed
instances. -/
def kmeansSample : KmeansState :=
  ⟨1, 2, [[0], [10]], 25, 1234, false⟩

/-- Removing the rows a predicate rejects keeps exactly the rows it accepts:
`length - |filter (not p)| = |filter p|`. -/
theorem length_sub_filter_not {α : Type} (p : α → Bool) (l : List α) :
    l.length - (l.filter fun a => !(p a)).length = (l.filter p).length := by
  induction l with
  | nil => rfl
  | cons a t ih =>
      have hle := List.length_filter_le (fun a => !(p a)) t
      cases h : p a <;> simp [List.filter_cons, h] <;> omega

/-- Filtering pairs on a predicate of the first component matches filtering
the projected list. -/
theorem length_filter_fst (p : Int → Bool) (l : List (Int × Vec)) :
    (l.filter fun e => p e.1).length = ((l.map Prod.fst).filter p).length := by
  induction l with
  | nil => rfl
  | cons a t ih =>
      cases h : p a.1 <;> simp [List.filter_cons, List.map_cons, h, ih]

/-- Counting, among the members of a duplicate-free list, those that belong
to another duplicate-free list is symmetric. -/
theorem filter_mem_length_comm (A B : List Int) (hA : A.Nodup) (hB : B.Nodup) :
    (A.filter fun a => decide (a ∈ B)).length = (B.filter fun b => decide (b ∈ A)).length := by
  have hA2 : (A.filter fun a => decide (a ∈ B)).Nodup := hA.filter _
  have hB2 : (B.filter fun b => decide (b ∈ A)).Nodup := hB.filter _
  rw [← List.toFinset_card_of_nodup hA2, ← List.toFinset_card_of_nodup hB2]
  congr 1
  ext x
  simp only [List.mem_toFinset, List.mem_filter, decide_eq_true_eq]
  exact and_comm

/-- The best-so-far scan of the modelled flat search: its result never
exceeds the running best, never exceeds any scanned distance, and is either
the running best or a scanned (index, distance) pair. -/
theorem flatL2Nearest_spec (q : Vec) (cs : List Vec) (i0 : Nat) (best : Nat × Int) :
    (∀ j, j < cs.length →
      (flatL2Nearest q cs i0 best).2 ≤ l2sq q (cs.getD j [])) ∧
    (flatL2Nearest q cs i0 best).2 ≤ best.2 ∧
    (flatL2Nearest q cs i0 best = best ∨
      ∃ j, j < cs.length ∧ (flatL2Nearest q cs i0 best).1 = i0 + j ∧
        (flatL2Nearest q cs i0 best).2 = l2sq q (cs.getD j [])) := by
  induction cs generalizing i0 best with
  | nil =>
      refine ⟨?_, le_refl _, Or.inl rfl⟩
      intro j hj
      exact absurd hj (Nat.not_lt_zero j)
  | cons c rest ih =>
      by_cases hc : l2sq q c < best.2
      · have hstep : flatL2Nearest q (c :: rest) i0 best =
            flatL2Nearest q rest (i0 + 1) (i0, l2sq q c) := by
          simp [flatL2Nearest, hc]
        obtain ⟨H1, H2, H3⟩ := ih (i0 + 1) (i0, l2sq q c)
        refine ⟨?_, ?_, ?_⟩
        · intro j hj
          rw [hstep]
          cases j with
          | zero => exact H2
          | succ j' => exact H1 j' (by simpa using hj)
        · rw [hstep]
          exact le_trans H2 (le_of_lt hc)
        · rw [hstep]
          rcases H3 with h | ⟨j, hj, h1, h2⟩
          · right
            refine ⟨0, by simp, ?_, ?_⟩
            · rw [h]
              simp
            · rw [h]
              rfl
          · right
            refine ⟨j + 1, by simp only [List.length_cons]; omega, by omega, h2⟩
      · have hstep : flatL2Nearest q (c :: rest) i0 best =
            flatL2Nearest q rest (i0 + 1) best := by
          simp [flatL2Nearest, hc]
        obtain ⟨H1, H2, H3⟩ := ih (i0 + 1) best
        refine ⟨?_, ?_, ?_⟩
        · intro j hj
          rw [hstep]
          cases j with
          | zero => exact le_trans H2 (le_of_not_lt hc)
          | succ j' => exact H1 j' (by simpa using hj)
        · rw [hstep]
          exact H2
        · rw [hstep]
          rcases H3 with h | ⟨j, hj, h1, h2⟩
          · exact Or.inl h
          · right
            refine ⟨j + 1, by simp only [List.length_cons]; omega, by omega, h2⟩

/-- The modelled flat `k = 1` search returns an in-range label whose stored
vector minimises the squared L2 distance to the query. -/
theorem flatL2Search1_nearest (cs : List Vec) (q : Vec) (hne : cs ≠ []) :
    flatL2Search1 cs q < cs.length ∧
    ∀ j, j < cs.length →
      l2sq q (cs.getD (flatL2Search1 cs q) []) ≤ l2sq q (cs.getD j []) := by
  cases cs with
  | nil => exact absurd rfl hne
  | cons c rest =>
      obtain ⟨H1, H2, H3⟩ := flatL2Nearest_spec q rest 1 (0, l2sq q c)
      have hmin : ∀ j, j < (c :: rest).length →
          (flatL2Nearest q rest 1 (0, l2sq q c)).2 ≤ l2sq q ((c :: rest).getD j []) := by
        intro j hj
        cases j with
        | zero => exact H2
        | succ j' => exact H1 j' (by simpa using hj)
      rcases H3 with h | ⟨j, hj, h1, h2⟩
      · constructor
        · show (flatL2Nearest q rest 1 (0, l2sq q c)).1 < (c :: rest).length
          rw [h]
          simp
        · intro j2 hj2
          show l2sq q ((c :: rest).getD (flatL2Nearest q rest 1 (0, l2sq q c)).1 []) ≤
            l2sq q ((c :: rest).getD j2 [])
          have hgoal := hmin j2 hj2
          rw [h] at hgoal ⊢
          exact hgoal
      · have h1' : (flatL2Nearest q rest 1 (0, l2sq q c)).1 = j + 1 := by omega
        constructor
        · show (flatL2Nearest q rest 1 (0, l2sq q c)).1 < (c :: rest).length
          rw [h1']
          simp only [List.length_cons]
          omega
        · intro j2 hj2
          show l2sq q ((c :: rest).getD (flatL2Nearest q rest 1 (0, l2sq q c)).1 []) ≤
            l2sq q ((c :: rest).getD j2 [])
          rw [h1']
          have hv : l2sq q ((c :: rest).getD (j + 1) []) =
              (flatL2Nearest q rest 1 (0, l2sq q c)).2 := by
            rw [h2]
            rfl
          rw [hv]
          exact hmin j2 hj2

/-- C1: deserialising the buffer produced by serialising any successfully
built index yields an index with the same `d`, `metric`, `ntotal` and
`trained` flag (the reconstructed `EngineIndex` equals the original), and
the recovered variant-tag string is the probe of the original's class. -/
theorem serialize_roundtrip (i : EngineIndex) :
    faiss_deserialize_index (faiss_serialize_index i) =
      some ⟨i, probeTagDeserialize i.cls, i.d, metricCode i.metric, i.ntotal⟩ := by
  obtain ⟨cls, d, metric, ntotal, trained⟩ := i
  cases cls <;> cases metric <;> cases trained <;> rfl

/-- C2: every wrapped boundary operation converts any fault — whatever its
cause — into the status `-1`, which is negative, and returns 0 when the
engine call completes; the wrapper is a total function of the outcome, so no
fault propagates past the boundary and no abort occurs. -/
theorem boundary_fault_to_status (op : BoundaryOp) (f : Fault) :
    boundaryStatus op (Except.error f) = -1 ∧
    boundaryStatus op (Except.error f) < 0 ∧
    boundaryStatus op (Except.ok ()) = 0 := by
  cases f <;> exact ⟨rfl, show (-1 : Int) < 0 by decide, rfl⟩

/-- C3: each variant-specific accessor invoked on a handle of the wrong
variant family returns the failure status `-1` and leaves the handle's state
— every field — unchanged; mismatched getters also leave the output
parameter unwritten. -/
theorem capability_mismatch_no_mutation (s : IndexState) (v : Int) :
    (isIVF s.cls = false →
      faiss_IndexIVF_set_nprobe s v = (-1, s) ∧
      faiss_IndexIVF_get_nprobe s = (-1, none)) ∧
    (isHNSW s.cls = false →
      faiss_IndexHNSW_set_efConstruction s v = (-1, s) ∧
      faiss_IndexHNSW_set_efSearch s v = (-1, s) ∧
      faiss_IndexHNSW_get_efConstruction s = (-1, none) ∧
      faiss_IndexHNSW_get_efSearch s = (-1, none)) ∧
    (isRefine s.cls = false →
      faiss_IndexRefine_set_k_factor s v = (-1, s)) := by
  constructor
  · intro h
    simp [faiss_IndexIVF_set_nprobe, faiss_IndexIVF_get_nprobe, h]
  constructor
  · intro h
    simp [faiss_IndexHNSW_set_efConstruction, faiss_IndexHNSW_set_efSearch,
      faiss_IndexHNSW_get_efConstruction, faiss_IndexHNSW_get_efSearch, h]
  · intro h
    simp [faiss_IndexRefine_set_k_factor, h]

/-- Witness for C3 at a concrete Flat handle. -/
theorem capability_mismatch_no_mutation_witness :
    faiss_IndexIVF_set_nprobe flatSample 7 = (-1, flatSample) ∧
    faiss_IndexHNSW_set_efSearch flatSample 7 = (-1, flatSample) ∧
    faiss_IndexRefine_set_k_factor flatSample 7 = (-1, flatSample) := by
  have h := capability_mismatch_no_mutation flatSample 7
  exact ⟨(h.1 (by decide)).1, (h.2.1 (by decide)).2.1, h.2.2 (by decide)⟩

/-- Counterexample to C4: on a successfully built Flat handle holding 5
vectors, `faiss_Index_ntotal` returns 5 — the queried value itself is the C
return value, not a status equal to 0 or a negative value, and the output is
not delivered through an output parameter. -/
theorem status_convention_counterexample :
    faiss_Index_ntotal flatSample = 5 ∧
    ¬(faiss_Index_ntotal flatSample = 0 ∨ faiss_Index_ntotal flatSample < 0) := by
  decide

/-- C4 as amended: every wrapped operation returns status 0 on success and a
negative status on failure with outputs through output parameters, but the
direct accessors return the queried value itself as the C return value
(`ntotal`, `d`, and `is_trained` as 1/0) and the free operations return
nothing at all. -/
theorem status_convention_amended (op : BoundaryOp) (f : Fault) (s : IndexState) :
    boundaryStatus op (Except.ok ()) = 0 ∧
    boundaryStatus op (Except.error f) < 0 ∧
    faiss_Index_ntotal s = s.ntotal ∧
    faiss_Index_d s = s.d ∧
    faiss_Index_is_trained s = (if s.trained then 1 else 0) ∧
    faiss_Index_free s = () := by
  cases f <;> exact ⟨rfl, show (-1 : Int) < 0 by decide, rfl, rfl, rfl, rfl⟩

/-- C5: in a build without accelerator support every device-resource and
device-transfer entry point returns the failure status `-1` (negative) for
every input, while the device-count query reports 0 devices with success
status 0. -/
theorem gpu_stub_uniform_failure (r p q c t dd mm nn : Unit) (d nlist m dev b : Int) :
    faiss_StandardGpuResources_new r = -1 ∧
    faiss_StandardGpuResources_setTempMemory r b = -1 ∧
    faiss_StandardGpuResources_setDefaultNullStreamAllDevices r = -1 ∧
    faiss_GpuIndexFlat_new p r d m dev = -1 ∧
    faiss_GpuIndexIVFFlat_new p r q d nlist m dev = -1 ∧
    faiss_index_cpu_to_gpu r dev c p = -1 ∧
    faiss_index_gpu_to_cpu c p t dd mm nn = -1 ∧
    faiss_index_cpu_to_all_gpus c p = -1 ∧
    (-1 : Int) < 0 ∧
    faiss_get_num_gpus = (0, 0) :=
  ⟨rfl, rfl, rfl, rfl, rfl, rfl, rfl, rfl, by decide, rfl⟩

/-- C7: both the file-based reader and the buffer-based deserialiser compute
the variant tag as the first match of the same ordered candidate list
(FlatL2, FlatIP, IVFFlat, IVFPQ, HNSWFlat, PQ, IDMap, otherwise
`"Unknown"`), so the two entry points recover the same tag for every
underlying index. -/
theorem probe_cascades_agree :
    (∀ c, probeTagRead c = firstMatch probeCandidates c) ∧
    (∀ c, probeTagDeserialize c = firstMatch probeCandidates c) ∧
    (∀ c, probeTagRead c = probeTagDeserialize c) ∧
    (∀ data : List Nat,
      (faiss_read_index data).map ReadOut.indexType =
        (faiss_deserialize_index data).map ReadOut.indexType) := by
  have h1 : ∀ c, probeTagRead c = firstMatch probeCandidates c := by
    intro c; cases c <;> rfl
  have h2 : ∀ c, probeTagDeserialize c = firstMatch probeCandidates c := by
    intro c; cases c <;> rfl
  have h3 : ∀ c, probeTagRead c = probeTagDeserialize c := by
    intro c; cases c <;> rfl
  have h4 : ∀ data : List Nat,
      (faiss_read_index data).map ReadOut.indexType =
        (faiss_deserialize_index data).map ReadOut.indexType := by
    intro data
    cases h : readIndexBytes data with
    | none => simp [faiss_read_index, faiss_deserialize_index, h]
    | some idx =>
        simp [faiss_read_index, faiss_deserialize_index, h]
        exact h3 idx.cls
  exact ⟨h1, h2, h3, h4⟩

/-- C9: in every metric-taking constructor the integer argument 0 selects the
inner-product metric and every nonzero value selects L2 (they all funnel
through the same ternary selection expression). -/
theorem metric_selection (q : RuntimeClass) (d nlist M nbits qtype m : Int) (fn : String) :
    (faiss_IndexIVFFlat_new q d nlist m).metric
        = (if m = 0 then Metric.innerProduct else Metric.l2) ∧
    (faiss_IndexHNSWFlat_new d M m).metric
        = (if m = 0 then Metric.innerProduct else Metric.l2) ∧
    (faiss_IndexPQ_new d M nbits m).metric
        = (if m = 0 then Metric.innerProduct else Metric.l2) ∧
    (faiss_IndexScalarQuantizer_new d qtype m).metric
        = (if m = 0 then Metric.innerProduct else Metric.l2) ∧
    (faiss_IndexIVFScalarQuantizer_new q d nlist qtype m).metric
        = (if m = 0 then Metric.innerProduct else Metric.l2) ∧
    (faiss_IndexPQFastScan_new d M nbits m).metric
        = (if m = 0 then Metric.innerProduct else Metric.l2) ∧
    (faiss_IndexIVFPQFastScan_new q d nlist M nbits m).metric
        = (if m = 0 then Metric.innerProduct else Metric.l2) ∧
    (faiss_IndexIVFFlatOnDisk_new q d nlist fn m).metric
        = (if m = 0 then Metric.innerProduct else Metric.l2) ∧
    (faiss_IndexIVFPQOnDisk_new q d nlist M nbits fn m).metric
        = (if m = 0 then Metric.innerProduct else Metric.l2) :=
  ⟨rfl, rfl, rfl, rfl, rfl, rfl, rfl, rfl, rfl⟩

/-- Counterexample to C10: with metric argument 0 the on-disk IVFPQ
constructor builds an inner-product index, while `faiss_IndexIVFPQ_new`
(which passes no metric, so the engine defaults to L2) builds an L2 index —
the two results are not equal. -/
theorem ondisk_equiv_counterexample :
    (faiss_IndexIVFPQOnDisk_new .flatL2 8 4 2 8 "lists.bin" 0).metric = Metric.innerProduct ∧
    (faiss_IndexIVFPQ_new .flatL2 8 4 2 8).metric = Metric.l2 ∧
    faiss_IndexIVFPQOnDisk_new .flatL2 8 4 2 8 "lists.bin" 0 ≠
      faiss_IndexIVFPQ_new .flatL2 8 4 2 8 := by
  refine ⟨rfl, rfl, ?_⟩
  intro h
  exact absurd (congrArg BuiltIndex.metric h) (by decide)

/-- C10 as amended: the on-disk constructors never consult the filename
(their result is independent of it); `faiss_IndexIVFFlatOnDisk_new` builds
exactly what `faiss_IndexIVFFlat_new` builds for every metric argument, and
`faiss_IndexIVFPQOnDisk_new` builds exactly what `faiss_IndexIVFPQ_new`
builds precisely when the metric argument is nonzero (the in-memory IVFPQ
entry point always receives the engine's default L2 metric). -/
theorem ondisk_equiv_amended (q : RuntimeClass) (d nlist M nbits m : Int) (f1 f2 : String) :
    faiss_IndexIVFFlatOnDisk_new q d nlist f1 m
        = faiss_IndexIVFFlatOnDisk_new q d nlist f2 m ∧
    faiss_IndexIVFPQOnDisk_new q d nlist M nbits f1 m
        = faiss_IndexIVFPQOnDisk_new q d nlist M nbits f2 m ∧
    faiss_IndexIVFFlatOnDisk_new q d nlist f1 m = faiss_IndexIVFFlat_new q d nlist m ∧
    (m ≠ 0 →
      faiss_IndexIVFPQOnDisk_new q d nlist M nbits f1 m
        = faiss_IndexIVFPQ_new q d nlist M nbits) := by
  refine ⟨rfl, rfl, rfl, fun hm => ?_⟩
  simp [faiss_IndexIVFPQOnDisk_new, faiss_IndexIVFPQ_new, toMetric,
    ivfpqDefaultMetric, hm]

/-- Witness for C10's amended statement at concrete arguments with a nonzero
metric. -/
theorem ondisk_equiv_amended_witness :
    faiss_IndexIVFFlatOnDisk_new .flatL2 8 4 "a.bin" 1
        = faiss_IndexIVFFlatOnDisk_new .flatL2 8 4 "b.bin" 1 ∧
    faiss_IndexIVFPQOnDisk_new .flatL2 8 4 2 8 "a.bin" 1
        = faiss_IndexIVFPQOnDisk_new .flatL2 8 4 2 8 "b.bin" 1 ∧
    faiss_IndexIVFFlatOnDisk_new .flatL2 8 4 "a.bin" 1 = faiss_IndexIVFFlat_new .flatL2 8 4 1 ∧
    faiss_IndexIVFPQOnDisk_new .flatL2 8 4 2 8 "a.bin" 1
        = faiss_IndexIVFPQ_new .flatL2 8 4 2 8 := by
  have h := ondisk_equiv_amended .flatL2 8 4 2 8 1 "a.bin" "b.bin"
  exact ⟨h.1, h.2.1, h.2.2.1, h.2.2.2 (by decide)⟩

/-- C6: for an IDMap whose external ids are unique (as `add_with_ids`
requires) and an id set `S`, `remove_ids` reports a removed count equal to
the number of ids of `S` present in the index, and `ntotal` decreases by
exactly that count. -/
theorem idmap_remove_count (s : IDMapState) (S : List Int)
    (hs : s.presentIds.Nodup) (hS : S.Nodup) :
    (faiss_IndexIDMap_remove_ids s S).1 =
      (S.filter fun x => decide (x ∈ s.presentIds)).length ∧
    (faiss_IndexIDMap_remove_ids s S).2.ntotal =
      s.ntotal - (faiss_IndexIDMap_remove_ids s S).1 := by
  have hcount : (s.entries.filter fun e => idSelectorBatch S e.1).length =
      (S.filter fun x => decide (x ∈ s.presentIds)).length :=
    calc (s.entries.filter fun e => idSelectorBatch S e.1).length
        = ((s.entries.map Prod.fst).filter (idSelectorBatch S)).length :=
          length_filter_fst (idSelectorBatch S) s.entries
      _ = (S.filter fun x => decide (x ∈ s.presentIds)).length :=
          filter_mem_length_comm s.presentIds S hs hS
  constructor
  · show s.entries.length - (s.entries.filter fun e => !(idSelectorBatch S e.1)).length =
      (S.filter fun x => decide (x ∈ s.presentIds)).length
    exact (length_sub_filter_not (fun e => idSelectorBatch S e.1) s.entries).trans hcount
  · show (s.entries.filter fun e => !(idSelectorBatch S e.1)).length =
      s.entries.length -
        (s.entries.length - (s.entries.filter fun e => !(idSelectorBatch S e.1)).length)
    have hle := List.length_filter_le (fun e => !(idSelectorBatch S e.1)) s.entries
    omega

/-- Witness for C6 on a concrete IDMap: of the set {20, 40} only 20 is
present, so one row is removed and `ntotal` drops from 3 to 2. -/
theorem idmap_remove_count_witness :
    (faiss_IndexIDMap_remove_ids idmapSample [20, 40]).1 =
      (([20, 40] : List Int).filter fun x => decide (x ∈ idmapSample.presentIds)).length ∧
    (faiss_IndexIDMap_remove_ids idmapSample [20, 40]).2.ntotal =
      idmapSample.ntotal - (faiss_IndexIDMap_remove_ids idmapSample [20, 40]).1 :=
  idmap_remove_count idmapSample [20, 40] (by decide) (by decide)

/-- C8: for a trained clustering job, `faiss_Kmeans_assign` is literally the
map of the modelled flat-L2 `k = 1` search over the inputs (the two engine
primitives and nothing else), and each returned label is in range and names
a centroid of minimal L2 distance to its query. -/
theorem kmeans_assign_nearest (km : KmeansState) (xs : List Vec)
    (hk : km.centroids.length = km.k) (hpos : 0 < km.k) :
    faiss_Kmeans_assign km xs = xs.map (flatL2Search1 km.centroids) ∧
    ∀ q ∈ xs,
      flatL2Search1 km.centroids q < km.k ∧
      ∀ j, j < km.k →
        l2sq q (km.centroids.getD (flatL2Search1 km.centroids q) []) ≤
          l2sq q (km.centroids.getD j []) := by
  refine ⟨rfl, ?_⟩
  intro q _
  have hne : km.centroids ≠ [] := by
    intro h
    rw [h] at hk
    simp only [List.length_nil] at hk
    omega
  obtain ⟨hb, hm⟩ := flatL2Search1_nearest km.centroids q hne
  rw [hk] at hb
  refine ⟨hb, fun j hj => hm j ?_⟩
  omega

/-- Witness for C8 on a trained job with centroids 0 and 10: query 1 maps to
centroid 0 and query 9 maps to centroid 1, each of minimal distance. -/
theorem kmeans_assign_nearest_witness :
    faiss_Kmeans_assign kmeansSample [[1], [9]] =
      ([[1], [9]] : List Vec).map (flatL2Search1 kmeansSample.centroids) ∧
    ∀ q ∈ ([[1], [9]] : List Vec),
      flatL2Search1 kmeansSample.centroids q < kmeansSample.k ∧
      ∀ j, j < kmeansSample.k →
        l2sq q (kmeansSample.centroids.getD (flatL2Search1 kmeansSample.centroids q) []) ≤
          l2sq q (kmeansSample.centroids.getD j []) :=
  kmeans_assign_nearest kmeansSample [[1], [9]] (by decide) (by decide)

end FaissGo
